import Mathlib

/-!
Shallow embedding of the litefs-js core (src/index.ts): instance-role
resolution, replication-position reading, the bounded replication wait loop,
the transaction-number cookie codec, and the three-way transactional
consistency decision.

Modelling conventions:
* JavaScript numbers are modelled by `JSNum` (NaN, the infinities, or an
  exact decimal fixed-point value); arithmetic in the embedded code stays
  exact.
* The filesystem is an explicit map from path to optional content (`none`
  models any read failure: missing file, permission error, I/O error).
* Process-wide environment (`process.env.LITEFS_DIR`,
  `process.env.DATABASE_FILENAME`, `os.hostname()`) is an explicit `Env`.
* Asynchronous waiting is modelled by indexing the filesystem by the number
  of completed sleep intervals (`fsAt : Nat → FS`), with the idealised clock
  `Date.now() = start + k * intervalMs` after `k` sleeps; the `do`/`while`
  loop takes a fuel argument (`none` = fuel exhausted, a modelling artifact
  only: in the program real time advances and the deadline is eventually
  passed).
* Throwing `Error` is modelled by `Except.error` carrying the message.
* String primitives from the JavaScript runtime and the `cookie` npm
  package (v0.5) are modelled character-by-character below, restricted to
  the character classes this code exercises (ASCII whitespace for `trim`,
  decimal and hexadecimal literals for `Number`/`parseInt`).
-/

deriving instance DecidableEq for Except

namespace LiteFSJs

/-- A JavaScript number as it occurs in this code: NaN, an infinity, or an
exact finite value. A finite value is kept in exact decimal fixed point:
`num m e` is the number `m / 10 ^ e`. Every number this code computes (hex
positions, decimal cookie literals, the constants 0/500/30) is a small
integer or short decimal literal, so IEEE-754 rounding never occurs and the
exact model coincides with the JavaScript values. -/
inductive JSNum where
  | nan
  | posInf
  | negInf
  | num (m : ℤ) (e : ℕ)
deriving DecidableEq, Repr

/-- `Number.isFinite`. -/
def JSNum.isFinite : JSNum → Bool
  | .num _ _ => true
  | _ => false

/-- JavaScript `a >= b` (false whenever either side is NaN); finite values
are compared exactly by cross multiplication. -/
def jsGe : JSNum → JSNum → Bool
  | .num m1 e1, .num m2 e2 => decide (m2 * 10 ^ e1 ≤ m1 * 10 ^ e2)
  | .num _ _, .negInf => true
  | .posInf, .num _ _ => true
  | .posInf, .posInf => true
  | .posInf, .negInf => true
  | .negInf, .negInf => true
  | _, _ => false

/-- JavaScript `a > b` (false whenever either side is NaN). -/
def jsGt : JSNum → JSNum → Bool
  | .num m1 e1, .num m2 e2 => decide (m2 * 10 ^ e1 < m1 * 10 ^ e2)
  | .num _ _, .negInf => true
  | .posInf, .num _ _ => true
  | .posInf, .negInf => true
  | _, _ => false

/-- JavaScript unary minus. -/
def jsNeg : JSNum → JSNum
  | .nan => .nan
  | .posInf => .negInf
  | .negInf => .posInf
  | .num m e => .num (-m) e

/-- ASCII whitespace trimmed by `String.prototype.trim` (restricted to the
ASCII range exercised by this code). -/
def isJsWhitespace (c : Char) : Bool :=
  c = ' ' ∨ c = '\t' ∨ c = '\n' ∨ c = '\r' ∨ c = '\x0b' ∨ c = '\x0c'

def isDigitChar (c : Char) : Bool := '0' ≤ c ∧ c ≤ '9'

def digitVal (c : Char) : ℕ := c.toNat - 48

def isHexDigitChar (c : Char) : Bool :=
  isDigitChar c ∨ ('a' ≤ c ∧ c ≤ 'f') ∨ ('A' ≤ c ∧ c ≤ 'F')

def hexVal (c : Char) : ℕ :=
  if isDigitChar c then c.toNat - 48
  else if 'a' ≤ c ∧ c ≤ 'f' then c.toNat - 87
  else c.toNat - 55

/-- `String.prototype.trim` on the underlying character list. -/
def trimChars (cs : List Char) : List Char :=
  ((cs.dropWhile isJsWhitespace).reverse.dropWhile isJsWhitespace).reverse

/-- `String.prototype.trim`. -/
def jsTrim (s : String) : String := ⟨trimChars s.data⟩

/-- `String.prototype.split` with a single-character separator. -/
def splitOnChar (c : Char) : List Char → List (List Char)
  | [] => [[]]
  | x :: xs =>
    if x = c then [] :: splitOnChar c xs
    else
      match splitOnChar c xs with
      | [] => [[x]]
      | s :: ss => (x :: s) :: ss

/-- Split a character list at its first occurrence of a given character
(`none` when the character does not occur). -/
def splitFirstAt (c : Char) : List Char → Option (List Char × List Char)
  | [] => none
  | x :: xs =>
    if x = c then some ([], xs)
    else (splitFirstAt c xs).map (fun p => (x :: p.1, p.2))

/-- Decimal value of a digit string (most significant digit first). -/
def parseDecNat (cs : List Char) : ℕ :=
  cs.foldl (fun a c => 10 * a + digitVal c) 0

/-- The decimal digit character of a single digit value. -/
def digitCharOf (d : ℕ) : Char := Char.ofNat (48 + d)

/-- The decimal digit characters of a natural number, most significant
first (empty for 0). -/
def natToDecChars (n : ℕ) : List Char :=
  (Nat.digits 10 n).reverse.map digitCharOf

/-- ECMAScript `String(n)` for a non-negative integer: its decimal digit
string. -/
def jsStringOfNat (n : ℕ) : String :=
  if n = 0 then "0" else ⟨natToDecChars n⟩

/-- Optional leading sign of a numeric literal: returns (isNegative, rest). -/
def stripSign : List Char → Bool × List Char
  | '-' :: r => (true, r)
  | '+' :: r => (false, r)
  | r => (false, r)

/-- Optional `0x`/`0X` prefix accepted by `parseInt(_, 16)`. -/
def strip0x : List Char → List Char
  | '0' :: 'x' :: r => r
  | '0' :: 'X' :: r => r
  | r => r

/-- JavaScript `parseInt(s, 16)`: trim, optional sign, optional `0x`/`0X`
prefix, then the longest prefix of hexadecimal digits; NaN when that prefix
is empty, otherwise its value (trailing garbage is ignored). -/
def parseIntHexChars (cs0 : List Char) : JSNum :=
  let signed := stripSign (trimChars cs0)
  let ds := (strip0x signed.2).takeWhile isHexDigitChar
  if ds = [] then .nan
  else
    let v : ℤ := (ds.foldl (fun a c => 16 * a + hexVal c) 0 : ℕ)
    .num (if signed.1 then -v else v) 0

def parseIntHex (s : String) : JSNum := parseIntHexChars s.data

/-- ECMAScript `ToNumber` applied to an unsigned numeric-literal candidate;
restricted model: `Infinity`, and decimal literals `digits`, `digits.digits`,
`.digits`, `digits.` (no exponent part and no hex/octal/binary literals,
which this code never produces). Anything else is NaN. -/
def parseUnsigned (cs : List Char) : JSNum :=
  if cs = "Infinity".data then .posInf
  else
    match splitOnChar '.' cs with
    | [i] =>
      if i ≠ [] ∧ i.all isDigitChar then .num (parseDecNat i : ℕ) 0 else .nan
    | [i, f] =>
      if (i ++ f) ≠ [] ∧ i.all isDigitChar ∧ f.all isDigitChar then
        .num ((parseDecNat i * 10 ^ f.length + parseDecNat f : ℕ) : ℤ) f.length
      else .nan
    | _ => .nan

/-- JavaScript `Number(s)` for a string: trim; empty string is 0; optional
sign followed by an unsigned numeric literal; otherwise NaN. -/
def jsNumberOfString (s : String) : JSNum :=
  match trimChars s.data with
  | [] => .num 0 0
  | c :: rest =>
    if c = '+' then parseUnsigned rest
    else if c = '-' then jsNeg (parseUnsigned rest)
    else parseUnsigned (c :: rest)

/-- JavaScript `Number(v)` where `v` is a possibly-undefined string
(`Number(undefined)` is NaN). -/
def jsNumberOfValue : Option String → JSNum
  | none => .nan
  | some s => jsNumberOfString s

/-- The filesystem as seen by the library: a path is mapped to its content,
or to `none` on any read failure (missing file, permission, I/O error). -/
abbrev FS := String → Option String

/-- The ambient process-wide state read by the library: the two environment
variables and `os.hostname()`. `none` models an unset variable. -/
structure Env where
  litefsDir : Option String
  databaseFilename : Option String
  hostname : String

/-- JavaScript default-parameter semantics: an `undefined` argument is
replaced by the declared default. -/
def resolveOpt (explicit envDefault : Option String) : Option String :=
  match explicit with
  | some v => some v
  | none => envDefault

/-- JavaScript string truthiness as used by `if (!litefsDir) throw ...`:
the empty string is falsy. -/
def presentStr : Option String → Option String
  | some s => if s = "" then none else some s
  | none => none

def litefsDirErrorGetInstanceInfo : String :=
  "litefs-js: LITEFS_DIR is not defined. You must either set the LITEFS_DIR environment variable or pass the litefsDir argument to getInstanceInfo"

def litefsDirErrorGetTxNumber : String :=
  "litefs-js: LITEFS_DIR is not defined. You must either set the LITEFS_DIR environment variable or pass the litefsDir argument to getTxNumber"

def databaseFilenameErrorGetTxNumber : String :=
  "litefs-js: DATABASE_FILENAME is not defined. You must either set the DATABASE_FILENAME environment variable or pass the databaseFilename argument to getTxNumber"

structure InstanceInfo where
  primaryInstance : String
  currentInstance : String
  currentIsPrimary : Bool
deriving DecidableEq, Repr

/-- `getInstanceInfo` (src/index.ts:49): reads `litefsDir/.primary`; on any
read failure the current host is the primary; otherwise the trimmed file
content names the primary. Throws when no directory resolves. -/
def getInstanceInfo (fs : FS) (env : Env) (litefsDir : Option String) :
    Except String InstanceInfo :=
  match presentStr (resolveOpt litefsDir env.litefsDir) with
  | none => .error litefsDirErrorGetInstanceInfo
  | some dir =>
    let currentInstance := env.hostname
    let primaryInstance :=
      match fs (dir ++ "/.primary") with
      | some content => jsTrim content
      | none => currentInstance
    .ok ⟨primaryInstance, currentInstance, currentInstance == primaryInstance⟩

/-- `getInstanceInfoSync` (src/index.ts:85): the synchronous variant, with
the same body modulo `readFileSync`. -/
def getInstanceInfoSync (fs : FS) (env : Env) (litefsDir : Option String) :
    Except String InstanceInfo :=
  match presentStr (resolveOpt litefsDir env.litefsDir) with
  | none => .error litefsDirErrorGetInstanceInfo
  | some dir =>
    let currentInstance := env.hostname
    let primaryInstance :=
      match fs (dir ++ "/.primary") with
      | some content => jsTrim content
      | none => currentInstance
    .ok ⟨primaryInstance, currentInstance, currentInstance == primaryInstance⟩

/-- `getTxNumber` (src/index.ts:188): reads
`litefsDir/databaseFilename-pos`, trims it, splits on `/` and parses the
first field as hexadecimal with `parseInt(_, 16)`; returns 0 when the read
itself fails. Throws when a directory or database filename does not
resolve. -/
def getTxNumber (fs : FS) (env : Env)
    (litefsDir databaseFilename : Option String) : Except String JSNum :=
  match presentStr (resolveOpt litefsDir env.litefsDir) with
  | none => .error litefsDirErrorGetTxNumber
  | some dir =>
    match presentStr (resolveOpt databaseFilename env.databaseFilename) with
    | none => .error databaseFilenameErrorGetTxNumber
    | some db =>
      .ok
        (match fs (dir ++ "/" ++ db ++ "-pos") with
        | none => .num 0 0
        | some dbPos =>
          parseIntHexChars
            (List.headD (splitOnChar '/' (trimChars dbPos.data)) []))

/-- The name of the transaction-number cookie (src/index.ts:112). -/
def TXID_NUM_COOKIE_NAME : String := "txnum"

/-- The `do`/`while` loop body of `waitForUpToDateTxNumber`
(src/index.ts:163): at iteration `k = 1, 2, ...` it has just slept for the
`k`-th time, re-reads the transaction number through `readAt k`, and
repeats exactly while the source condition
`currentTxNumber >= clientTxNumber && Date.now() < stopTime` holds, with
the idealised clock `Date.now() = start + k * intervalMs` and
`stopTime = start + timeoutMs`. Produces the final read together with the
number of sleeps performed; `none` means the fuel ran out (a modelling
artifact), and a thrown read propagates as `Except.error`. -/
def waitLoop (readAt : ℕ → Except String JSNum) (clientTxNumber : JSNum)
    (timeoutMs intervalMs : ℕ) : ℕ → ℕ → Option (Except String (JSNum × ℕ))
  | 0, _ => none
  | fuel + 1, k =>
    match readAt k with
    | .error e => some (.error e)
    | .ok cur =>
      if jsGe cur clientTxNumber ∧ k * intervalMs < timeoutMs then
        waitLoop readAt clientTxNumber timeoutMs intervalMs fuel (k + 1)
      else some (.ok (cur, k))

/-- `waitForUpToDateTxNumber` (src/index.ts:149). The first read passes the
explicitly supplied `litefsDir`/`databaseFilename` through to `getTxNumber`;
the re-reads inside the loop call `getTxNumber()` with no arguments, hence
with the process-wide environment defaults. `fsAt k` is the filesystem as
seen after `k` completed sleeps. The result carries the returned boolean
together with the number of sleeps performed before returning. -/
def waitForUpToDateTxNumber (fsAt : ℕ → FS) (env : Env)
    (clientTxNumber : JSNum) (litefsDir databaseFilename : Option String)
    (timeoutMs intervalMs fuel : ℕ) : Option (Except String (Bool × ℕ)) :=
  match getTxNumber (fsAt 0) env litefsDir databaseFilename with
  | .error e => some (.error e)
  | .ok cur0 =>
    if jsGe cur0 clientTxNumber then some (.ok (true, 0))
    else
      match
        waitLoop (fun k => getTxNumber (fsAt k) env none none) clientTxNumber
          timeoutMs intervalMs fuel 1
      with
      | none => none
      | some (.error e) => some (.error e)
      | some (.ok (cur, k)) => some (.ok (jsGe cur clientTxNumber, k))

/-- One key/value pair of a `Cookie` header segment, as the `cookie` npm
package (v0.5) produces it: split at the first `=` (segments without `=`
yield nothing), trim both sides, strip one level of surrounding double
quotes from the value. Percent-decoding is omitted: the values this
development evaluates contain no percent escapes. -/
def stripQuotes (cs : List Char) : List Char :=
  match cs with
  | [] => []
  | c :: rest => if c = '"' then rest.dropLast else c :: rest

def cookiePairOfSegment (seg : List Char) : Option (String × String) :=
  match splitFirstAt '=' seg with
  | none => none
  | some (k, v) => some (⟨trimChars k⟩, ⟨stripQuotes (trimChars v)⟩)

/-- `cookie.parse` (cookie npm package v0.5) for headers made of
`;`-separated `key=value` segments; the first occurrence of a key wins. -/
def cookieParse (s : String) : List (String × String) :=
  (splitOnChar ';' s.data).filterMap cookiePairOfSegment

/-- Indexing the parsed cookie object, `cookies[name]`. -/
def lookupCookie (ps : List (String × String)) (k : String) : Option String :=
  match ps.find? (fun p => p.1 == k) with
  | some p => some p.2
  | none => none

/-- `cookieHeader ? cookie.parse(cookieHeader) : {}` (src/index.ts:280);
a missing or empty (falsy) header parses to the empty object. -/
def requestCookies : Option String → List (String × String)
  | some h => if h = "" then [] else cookieParse h
  | none => []

/-- `getTxSetCookieHeader` (src/index.ts:228): serializes the `txnum`
cookie with `String(value)` and the defaults path=/, httpOnly, secure,
sameSite=lax, in the attribute order of `cookie.serialize` (v0.5); the only
override this library itself passes is `expires`, modelled here as the
already-rendered `toUTCString` text. -/
def getTxSetCookieHeader (value : ℕ) (expires : Option String) : String :=
  TXID_NUM_COOKIE_NAME ++ "=" ++ jsStringOfNat value ++ "; Path=/" ++
    (match expires with
    | some e => "; Expires=" ++ e
    | none => "") ++ "; HttpOnly; Secure; SameSite=Lax"

/-- `new Date(0).toUTCString()`. -/
def epochUTCString : String := "Thu, 01 Jan 1970 00:00:00 GMT"

/-- The header produced by `deleteCookieHeader()` inside
`checkCookieForTransactionalConsistency` (src/index.ts:285):
`getTxSetCookieHeader(0, { expires: new Date(0) })`. -/
def deleteCookieHeader : String := getTxSetCookieHeader 0 (some epochUTCString)

/-- The three-way decision (src/index.ts:241). -/
inductive ConsistencyResult where
  | ok
  | deleteCookie (setCookieHeader : String)
  | replay (flyReplayHeader : String) (inst : String)
deriving DecidableEq, Repr

/-- `checkCookieForTransactionalConsistency` (src/index.ts:277). All reads
before the wait loop see the filesystem `fsAt 0`; the loop re-reads see
`fsAt k` after `k` sleeps. The calls to `getInstanceInfo()`,
`getTxNumber()` and `waitForUpToDateTxNumber(txCookieNumber)` pass no
explicit options, so every configuration value resolves from `env`. -/
def checkCookieForTransactionalConsistency (fsAt : ℕ → FS) (env : Env)
    (fuel : ℕ) (cookieHeader : Option String) :
    Option (Except String ConsistencyResult) :=
  let cookies := requestCookies cookieHeader
  let txCookieValue := lookupCookie cookies TXID_NUM_COOKIE_NAME
  let txCookieNumber := jsNumberOfValue txCookieValue
  let isValidTxNumber := txCookieNumber.isFinite
  if isValidTxNumber = false then
    match txCookieValue with
    | some v =>
      if v ≠ "" then some (.ok (.deleteCookie deleteCookieHeader))
      else some (.ok .ok)
    | none => some (.ok .ok)
  else
    match getInstanceInfo (fsAt 0) env none with
    | .error e => some (.error e)
    | .ok info =>
      match getTxNumber (fsAt 0) env none none with
      | .error e => some (.error e)
      | .ok _currentTxNumber =>
        if info.currentIsPrimary then
          some (.ok (.deleteCookie deleteCookieHeader))
        else
          match
            waitForUpToDateTxNumber fsAt env txCookieNumber none none
              500 30 fuel
          with
          | none => none
          | some (.error e) => some (.error e)
          | some (.ok (txNumberIsUpToDate, _)) =>
            if txNumberIsUpToDate then
              some (.ok (.deleteCookie deleteCookieHeader))
            else
              some
                (.ok
                  (.replay ("instance=" ++ info.primaryInstance)
                    info.primaryInstance))

/-! Concrete environments and filesystems used by the closed theorems and
witnesses below. `envStd` models `LITEFS_DIR=/l`, `DATABASE_FILENAME=db`
and hostname `self`; the `fs*` values are filesystem snapshots. -/

def envStd : Env := ⟨some "/l", some "db", "self"⟩

def envNoVars : Env := ⟨none, none, "self"⟩

def envOther : Env := ⟨some "/y", some "db", "self"⟩

/-- A node with no `.primary` marker (hence primary) whose position file
under `envStd` reads `tx`. -/
def fsPrimary (tx : String) : FS := fun p =>
  if p = "/l/db-pos" then some tx else none

/-- A replica (marker names `otherhost`) whose position file under `envStd`
reads `tx`. -/
def fsReplica (tx : String) : FS := fun p =>
  if p = "/l/.primary" then some "otherhost" else
  if p = "/l/db-pos" then some tx else none

/-- Position 2 before the first sleep, 3 from the first re-read on. -/
def fsAtCatchUp : ℕ → FS := fun k =>
  if k = 0 then fsReplica "2/0" else fsReplica "3/0"

/-- Only the explicitly supplied directory `/x` has a position file. -/
def fsExplicitOnly : FS := fun p =>
  if p = "/x/db-pos" then some "0/0" else none

/-- The supplied directory `/x` stays at position 0 while the directory
named by the environment, `/y`, reads position 7. -/
def fsTwoDirs : FS := fun p =>
  if p = "/x/db-pos" then some "0/0" else
  if p = "/y/db-pos" then some "7/0" else none

/-- A position file whose leading field is not parseable hexadecimal. -/
def fsGarbagePos : FS := fun p =>
  if p = "/l/db-pos" then some "zzz/0" else none

/-! Helper lemmas about the character-level string model. -/

theorem dropWhile_eq_self_of_forall {p : Char → Bool} {l : List Char}
    (h : ∀ x ∈ l, p x = false) : l.dropWhile p = l := by
  cases l with
  | nil => rfl
  | cons a l => simp [List.dropWhile_cons, h a (List.mem_cons_self a l)]

theorem trimChars_eq_self {cs : List Char}
    (h : ∀ x ∈ cs, isJsWhitespace x = false) : trimChars cs = cs := by
  unfold trimChars
  rw [dropWhile_eq_self_of_forall h,
    dropWhile_eq_self_of_forall (fun x hx => h x (List.mem_reverse.mp hx)),
    List.reverse_reverse]

theorem splitOnChar_of_forall_ne {c : Char} {xs : List Char}
    (h : ∀ x ∈ xs, x ≠ c) : splitOnChar c xs = [xs] := by
  induction xs with
  | nil => rfl
  | cons a l ih =>
    have ha : ¬(a = c) := h a (List.mem_cons_self a l)
    have hl := ih (fun x hx => h x (List.mem_cons_of_mem a hx))
    conv_lhs => unfold splitOnChar
    rw [if_neg ha, hl]

theorem splitOnChar_append {c : Char} {xs ys : List Char}
    (h : ∀ x ∈ xs, x ≠ c) :
    splitOnChar c (xs ++ c :: ys) = xs :: splitOnChar c ys := by
  induction xs with
  | nil =>
    show splitOnChar c (c :: ys) = [] :: splitOnChar c ys
    conv_lhs => unfold splitOnChar
    rw [if_pos rfl]
  | cons a l ih =>
    have ha : ¬(a = c) := h a (List.mem_cons_self a l)
    have hl := ih (fun x hx => h x (List.mem_cons_of_mem a hx))
    show splitOnChar c (a :: (l ++ c :: ys)) = (a :: l) :: splitOnChar c ys
    conv_lhs => unfold splitOnChar
    rw [if_neg ha, hl]

theorem splitFirstAt_append {c : Char} {xs ys : List Char}
    (h : ∀ x ∈ xs, x ≠ c) :
    splitFirstAt c (xs ++ c :: ys) = some (xs, ys) := by
  induction xs with
  | nil =>
    show splitFirstAt c (c :: ys) = some ([], ys)
    conv_lhs => unfold splitFirstAt
    rw [if_pos rfl]
  | cons a l ih =>
    have ha : ¬(a = c) := h a (List.mem_cons_self a l)
    have hl := ih (fun x hx => h x (List.mem_cons_of_mem a hx))
    show splitFirstAt c (a :: (l ++ c :: ys)) = some (a :: l, ys)
    conv_lhs => unfold splitFirstAt
    rw [if_neg ha, hl]
    rfl

theorem digitCharOf_props {d : ℕ} (h : d < 10) :
    isDigitChar (digitCharOf d) = true ∧ digitVal (digitCharOf d) = d := by
  interval_cases d <;> exact ⟨by decide, by decide⟩

theorem isDigitChar_props {c : Char} (h : isDigitChar c = true) :
    isJsWhitespace c = false ∧ c ≠ ';' ∧ c ≠ '=' ∧ c ≠ '.' ∧ c ≠ '"' ∧
      c ≠ '+' ∧ c ≠ '-' := by
  refine ⟨?_, ?_, ?_, ?_, ?_, ?_, ?_⟩
  · rcases Bool.eq_false_or_eq_true (isJsWhitespace c) with ht | hf
    · have hp : c = ' ' ∨ c = '\t' ∨ c = '\n' ∨ c = '\r' ∨ c = '\x0b' ∨
          c = '\x0c' := by simpa [isJsWhitespace] using ht
      rcases hp with rfl | rfl | rfl | rfl | rfl | rfl <;>
        · exact absurd h (by decide)
    · exact hf
  all_goals rintro rfl
  all_goals exact absurd h (by decide)

theorem all_digits_ne_infinity {cs : List Char}
    (h : ∀ x ∈ cs, isDigitChar x = true) : cs ≠ "Infinity".data := by
  intro heq
  have hI : ('I' : Char) ∈ cs := heq ▸ (by decide : ('I' : Char) ∈ "Infinity".data)
  exact absurd (h 'I' hI) (by decide)

theorem foldr_digitChars_eq_ofDigits {l : List ℕ} (h : ∀ d ∈ l, d < 10) :
    l.foldr (fun d a => 10 * a + digitVal (digitCharOf d)) 0 =
      Nat.ofDigits 10 l := by
  induction l with
  | nil => simp [Nat.ofDigits]
  | cons d l ih =>
    have hd : d < 10 := h d (List.mem_cons_self d l)
    have hl := ih (fun x hx => h x (List.mem_cons_of_mem d hx))
    simp only [List.foldr_cons, hl, Nat.ofDigits_cons, Nat.cast_id,
      (digitCharOf_props hd).2]
    omega

theorem jsStringOfNat_spec (n : ℕ) :
    (jsStringOfNat n).data ≠ [] ∧
      (∀ c ∈ (jsStringOfNat n).data, isDigitChar c = true) ∧
      parseDecNat (jsStringOfNat n).data = n := by
  by_cases h0 : n = 0
  · subst h0
    exact ⟨by decide, by decide, by decide⟩
  · have hdata : (jsStringOfNat n).data = natToDecChars n := by
      unfold jsStringOfNat
      rw [if_neg h0]
    have hlt : ∀ d ∈ Nat.digits 10 n, d < 10 := fun d hd =>
      Nat.digits_lt_base (by norm_num) hd
    refine ⟨?_, ?_, ?_⟩
    · rw [hdata]
      simp [natToDecChars, Nat.digits_ne_nil_iff_ne_zero, h0]
    · rw [hdata]
      intro c hc
      rcases List.mem_map.mp hc with ⟨d, hd, rfl⟩
      exact (digitCharOf_props (hlt d (List.mem_reverse.mp hd))).1
    · rw [hdata]
      unfold natToDecChars parseDecNat
      rw [List.map_reverse, List.foldl_reverse, List.foldr_map]
      exact (foldr_digitChars_eq_ofDigits hlt).trans (Nat.ofDigits_digits 10 n)

end LiteFSJs

namespace LiteFSJs

theorem getTxSetCookieHeader_none_data (n : ℕ) :
    (getTxSetCookieHeader n none).data =
      't' :: 'x' :: 'n' :: 'u' :: 'm' :: '=' ::
        ((jsStringOfNat n).data ++
          ';' :: " Path=/; HttpOnly; Secure; SameSite=Lax".data) := by
  unfold getTxSetCookieHeader TXID_NUM_COOKIE_NAME
  simp only [String.data_append]
  simp only [List.append_assoc]
  rfl

theorem jsNumberOfString_digits {s : String} (hne : s.data ≠ [])
    (hdig : ∀ c ∈ s.data, isDigitChar c = true) :
    jsNumberOfString s = JSNum.num ((parseDecNat s.data : ℕ) : ℤ) 0 := by
  obtain ⟨c, ds, hcds⟩ := List.exists_cons_of_ne_nil hne
  have htds : trimChars s.data = s.data :=
    trimChars_eq_self (fun x hx => (isDigitChar_props (hdig x hx)).1)
  have hdig2 : ∀ x ∈ c :: ds, isDigitChar x = true := hcds ▸ hdig
  have hc : isDigitChar c = true := hdig2 c (List.mem_cons_self c ds)
  unfold jsNumberOfString
  rw [htds, hcds]
  show (if c = '+' then parseUnsigned ds
    else if c = '-' then jsNeg (parseUnsigned ds)
    else parseUnsigned (c :: ds)) = JSNum.num ((parseDecNat (c :: ds) : ℕ) : ℤ) 0
  rw [if_neg (isDigitChar_props hc).2.2.2.2.2.1,
    if_neg (isDigitChar_props hc).2.2.2.2.2.2]
  unfold parseUnsigned
  rw [if_neg (all_digits_ne_infinity hdig2),
    splitOnChar_of_forall_ne (fun x hx => (isDigitChar_props (hdig2 x hx)).2.2.2.1)]
  show (if (c :: ds) ≠ [] ∧ (c :: ds).all isDigitChar then
      JSNum.num ((parseDecNat (c :: ds) : ℕ) : ℤ) 0 else .nan) =
    JSNum.num ((parseDecNat (c :: ds) : ℕ) : ℤ) 0
  rw [if_pos ⟨List.cons_ne_nil c ds, List.all_eq_true.mpr hdig2⟩]

/-- C7: round trip — for every non-negative integer `n`, parsing the
`txnum` value back out of the Set-Cookie header produced by
`getTxSetCookieHeader n` with the same cookie parsing and `Number(...)`
conversion the decision engine uses yields exactly `n`. -/
theorem txnum_cookie_roundTrip (n : ℕ) :
    jsNumberOfValue
        (lookupCookie (cookieParse (getTxSetCookieHeader n none))
          TXID_NUM_COOKIE_NAME) = JSNum.num (n : ℤ) 0 := by
  obtain ⟨hne, hdig, hval⟩ := jsStringOfNat_spec n
  obtain ⟨c, ds0, hcds⟩ := List.exists_cons_of_ne_nil hne
  have hnotsemi : ∀ x ∈ 't' :: 'x' :: 'n' :: 'u' :: 'm' :: '=' ::
      (jsStringOfNat n).data, x ≠ ';' := by
    intro x hx
    simp only [List.mem_cons] at hx
    rcases hx with rfl | rfl | rfl | rfl | rfl | rfl | hx
    · decide
    · decide
    · decide
    · decide
    · decide
    · decide
    · exact (isDigitChar_props (hdig x hx)).2.1
  have hsplit : splitOnChar ';' (getTxSetCookieHeader n none).data
      = ('t' :: 'x' :: 'n' :: 'u' :: 'm' :: '=' :: (jsStringOfNat n).data) ::
        splitOnChar ';' " Path=/; HttpOnly; Secure; SameSite=Lax".data := by
    rw [getTxSetCookieHeader_none_data]
    exact splitOnChar_append hnotsemi
  have htds : trimChars (jsStringOfNat n).data = (jsStringOfNat n).data :=
    trimChars_eq_self (fun x hx => (isDigitChar_props (hdig x hx)).1)
  have hpair : cookiePairOfSegment
      ('t' :: 'x' :: 'n' :: 'u' :: 'm' :: '=' :: (jsStringOfNat n).data)
      = some ("txnum", ⟨(jsStringOfNat n).data⟩) := by
    have h1 : splitFirstAt '='
        ('t' :: 'x' :: 'n' :: 'u' :: 'm' :: '=' :: (jsStringOfNat n).data)
        = some (['t', 'x', 'n', 'u', 'm'], (jsStringOfNat n).data) :=
      @splitFirstAt_append '=' ['t', 'x', 'n', 'u', 'm']
        ((jsStringOfNat n).data) (by decide)
    have hsq : stripQuotes (trimChars (jsStringOfNat n).data)
        = (jsStringOfNat n).data := by
      rw [htds, hcds]
      unfold stripQuotes
      show (if c = '"' then ds0.dropLast else c :: ds0) = c :: ds0
      rw [if_neg
        (isDigitChar_props (hdig c (hcds ▸ List.mem_cons_self c ds0))).2.2.2.2.1]
    unfold cookiePairOfSegment
    rw [h1]
    show some ((⟨trimChars ['t', 'x', 'n', 'u', 'm']⟩ : String),
        (⟨stripQuotes (trimChars (jsStringOfNat n).data)⟩ : String))
      = some ("txnum", (⟨(jsStringOfNat n).data⟩ : String))
    rw [hsq]
    rfl
  have hlook : lookupCookie (cookieParse (getTxSetCookieHeader n none))
      TXID_NUM_COOKIE_NAME = some ⟨(jsStringOfNat n).data⟩ := by
    unfold cookieParse
    rw [hsplit, List.filterMap_cons_some hpair]
    unfold lookupCookie
    rw [List.find?_cons_of_pos _ (by rfl)]
  rw [hlook]
  show jsNumberOfString ⟨(jsStringOfNat n).data⟩ = JSNum.num (n : ℤ) 0
  have := @jsNumberOfString_digits ⟨(jsStringOfNat n).data⟩ hne hdig
  rw [this, hval]

end LiteFSJs

namespace LiteFSJs

theorem checkCookie_nonfinite_aux (fsAt : ℕ → FS) (env : Env) (fuel : ℕ)
    (hdr v : String)
    (hv : lookupCookie (requestCookies (some hdr)) TXID_NUM_COOKIE_NAME = some v)
    (hnf : (jsNumberOfValue (some v)).isFinite = false) :
    checkCookieForTransactionalConsistency fsAt env fuel (some hdr)
      = some (.ok (.deleteCookie deleteCookieHeader)) := by
  have hvne : v ≠ "" := by
    rintro rfl
    rw [(by decide : jsNumberOfValue (some "") = JSNum.num 0 0)] at hnf
    exact absurd hnf (by decide)
  simp only [checkCookieForTransactionalConsistency]
  rw [hv, hnf]
  rw [if_pos rfl]
  show (if v ≠ "" then
      some (Except.ok (ConsistencyResult.deleteCookie deleteCookieHeader))
    else some (Except.ok ConsistencyResult.ok) :
      Option (Except String ConsistencyResult))
    = some (Except.ok (ConsistencyResult.deleteCookie deleteCookieHeader))
  rw [if_pos hvne]

theorem checkCookie_finite_aux (fsAt : ℕ → FS) (env : Env) (fuel : ℕ)
    (hdr v : String)
    (hv : lookupCookie (requestCookies (some hdr)) TXID_NUM_COOKIE_NAME = some v)
    (hfin : (jsNumberOfValue (some v)).isFinite = true) :
    checkCookieForTransactionalConsistency fsAt env fuel (some hdr) =
      (match getInstanceInfo (fsAt 0) env none with
      | .error e => some (.error e)
      | .ok info =>
        match getTxNumber (fsAt 0) env none none with
        | .error e => some (.error e)
        | .ok _ =>
          if info.currentIsPrimary then
            some (.ok (.deleteCookie deleteCookieHeader))
          else
            match
              waitForUpToDateTxNumber fsAt env (jsNumberOfValue (some v))
                none none 500 30 fuel
            with
            | none => none
            | some (.error e) => some (.error e)
            | some (.ok (u, _)) =>
              if u then some (.ok (.deleteCookie deleteCookieHeader))
              else
                some
                  (.ok
                    (.replay ("instance=" ++ info.primaryInstance)
                      info.primaryInstance)) :
        Option (Except String ConsistencyResult)) := by
  simp only [checkCookieForTransactionalConsistency]
  rw [hv, hfin]
  rw [if_neg (by decide : ¬(true = false))]

end LiteFSJs
namespace LiteFSJs

theorem checkCookie_finite_resolved_aux (fsAt : ℕ → FS) (env : Env)
    (fuel : ℕ) (hdr v : String) (info : InstanceInfo) (cur : JSNum)
    (hv : lookupCookie (requestCookies (some hdr)) TXID_NUM_COOKIE_NAME = some v)
    (hfin : (jsNumberOfValue (some v)).isFinite = true)
    (hinfo : getInstanceInfo (fsAt 0) env none = .ok info)
    (hcur : getTxNumber (fsAt 0) env none none = .ok cur) :
    checkCookieForTransactionalConsistency fsAt env fuel (some hdr) =
      (if info.currentIsPrimary then
        some (.ok (.deleteCookie deleteCookieHeader))
      else
        match
          waitForUpToDateTxNumber fsAt env (jsNumberOfValue (some v))
            none none 500 30 fuel
        with
        | none => none
        | some (.error e) => some (.error e)
        | some (.ok (u, _)) =>
          if u then some (.ok (.deleteCookie deleteCookieHeader))
          else
            some
              (.ok
                (.replay ("instance=" ++ info.primaryInstance)
                  info.primaryInstance)) :
        Option (Except String ConsistencyResult)) := by
  rw [checkCookie_finite_aux fsAt env fuel hdr v hv hfin, hinfo, hcur]

theorem checkCookie_finite_never_ok (fsAt : ℕ → FS) (env : Env) (fuel : ℕ)
    (hdr v : String)
    (hv : lookupCookie (requestCookies (some hdr)) TXID_NUM_COOKIE_NAME = some v)
    (hfin : (jsNumberOfValue (some v)).isFinite = true) :
    checkCookieForTransactionalConsistency fsAt env fuel (some hdr)
      ≠ some (.ok .ok) := by
  rw [checkCookie_finite_aux fsAt env fuel hdr v hv hfin]
  cases hI : getInstanceInfo (fsAt 0) env none with
  | error e => simp
  | ok info =>
    cases hT : getTxNumber (fsAt 0) env none none with
    | error e => simp
    | ok cur =>
      by_cases hp : info.currentIsPrimary
      · simp [hp]
      · simp only [hp]
        cases hW : waitForUpToDateTxNumber fsAt env (jsNumberOfValue (some v))
            none none 500 30 fuel with
        | none => simp
        | some r =>
          cases r with
          | error e => simp
          | ok p =>
            obtain ⟨u, k⟩ := p
            cases u <;> simp

end LiteFSJs
namespace LiteFSJs

/-- C5: for every present cookie value on an instance whose role resolves to
primary (with both reads succeeding), the decision is the delete-cookie
outcome, never replay — including when the cookie number exceeds the
current transaction number. -/
theorem checkCookie_primary_always_deletes (fsAt : ℕ → FS) (env : Env)
    (fuel : ℕ) (hdr v : String) (info : InstanceInfo) (cur : JSNum)
    (hv : lookupCookie (requestCookies (some hdr)) TXID_NUM_COOKIE_NAME = some v)
    (hinfo : getInstanceInfo (fsAt 0) env none = .ok info)
    (hp : info.currentIsPrimary = true)
    (hcur : getTxNumber (fsAt 0) env none none = .ok cur) :
    checkCookieForTransactionalConsistency fsAt env fuel (some hdr)
      = some (.ok (.deleteCookie deleteCookieHeader)) := by
  cases hfin : (jsNumberOfValue (some v)).isFinite with
  | false => exact checkCookie_nonfinite_aux fsAt env fuel hdr v hv hfin
  | true =>
    rw [checkCookie_finite_resolved_aux fsAt env fuel hdr v info cur hv hfin
      hinfo hcur]
    rw [if_pos hp]

theorem checkCookie_primary_always_deletes_witness :
    checkCookieForTransactionalConsistency (fun _ => fsPrimary "1/0") envStd 1
        (some "txnum=9") = some (.ok (.deleteCookie deleteCookieHeader)) :=
  checkCookie_primary_always_deletes (fun _ => fsPrimary "1/0") envStd 1
    "txnum=9" "9" ⟨"self", "self", true⟩ (.num 1 0) (by decide) (by decide)
    rfl (by decide)

/-- C6: on a replica, a present numerically-valid cookie value invokes the
replication waiter with the cookie number; a successful wait yields
delete-cookie and a timed-out wait yields replay targeting the resolved
primary instance. -/
theorem checkCookie_replica_uses_waiter (fsAt : ℕ → FS) (env : Env)
    (fuel : ℕ) (hdr v : String) (info : InstanceInfo) (cur : JSNum)
    (b : Bool) (k : ℕ)
    (hv : lookupCookie (requestCookies (some hdr)) TXID_NUM_COOKIE_NAME = some v)
    (hfin : (jsNumberOfValue (some v)).isFinite = true)
    (hinfo : getInstanceInfo (fsAt 0) env none = .ok info)
    (hp : info.currentIsPrimary = false)
    (hcur : getTxNumber (fsAt 0) env none none = .ok cur)
    (hw : waitForUpToDateTxNumber fsAt env (jsNumberOfValue (some v))
        none none 500 30 fuel = some (.ok (b, k))) :
    checkCookieForTransactionalConsistency fsAt env fuel (some hdr) =
      (if b then some (.ok (.deleteCookie deleteCookieHeader))
      else
        some
          (.ok
            (.replay ("instance=" ++ info.primaryInstance)
              info.primaryInstance)) :
        Option (Except String ConsistencyResult)) := by
  rw [checkCookie_finite_resolved_aux fsAt env fuel hdr v info cur hv hfin
    hinfo hcur]
  rw [if_neg (by rw [hp]; exact Bool.false_ne_true), hw]

theorem checkCookie_replica_uses_waiter_witness :
    checkCookieForTransactionalConsistency (fun _ => fsReplica "2/0") envStd
        100 (some "txnum=3")
      = some (.ok (.replay "instance=otherhost" "otherhost")) :=
  checkCookie_replica_uses_waiter (fun _ => fsReplica "2/0") envStd 100
    "txnum=3" "3" ⟨"otherhost", "self", false⟩ (.num 2 0) false 1 (by decide)
    (by decide) (by decide) rfl (by decide) (by decide)

end LiteFSJs
namespace LiteFSJs

/-- C10: a present `txnum` cookie with the empty-string value converts to
the number 0 (it is treated as a valid transaction number, not as absent or
corrupt), the decision is never the ok outcome for such a header, and on a
primary instance it is the delete-cookie outcome. -/
theorem checkCookie_empty_value_is_zero (fsAt : ℕ → FS) (env : Env)
    (fuel : ℕ) (hdr : String) (info : InstanceInfo) (cur : JSNum)
    (fsAt2 : ℕ → FS) (env2 : Env) (fuel2 : ℕ) (hdr2 : String)
    (hv : lookupCookie (requestCookies (some hdr)) TXID_NUM_COOKIE_NAME
      = some "")
    (hinfo : getInstanceInfo (fsAt 0) env none = .ok info)
    (hp : info.currentIsPrimary = true)
    (hcur : getTxNumber (fsAt 0) env none none = .ok cur)
    (hv2 : lookupCookie (requestCookies (some hdr2)) TXID_NUM_COOKIE_NAME
      = some "") :
    jsNumberOfValue (some "") = JSNum.num 0 0 ∧
    checkCookieForTransactionalConsistency fsAt env fuel (some hdr)
      = some (.ok (.deleteCookie deleteCookieHeader)) ∧
    checkCookieForTransactionalConsistency fsAt2 env2 fuel2 (some hdr2)
      ≠ some (.ok .ok) := by
  refine ⟨by decide, ?_, ?_⟩
  · rw [checkCookie_finite_resolved_aux fsAt env fuel hdr "" info cur hv
      (by decide) hinfo hcur]
    rw [if_pos hp]
  · exact checkCookie_finite_never_ok fsAt2 env2 fuel2 hdr2 "" hv2 (by decide)

theorem checkCookie_empty_value_is_zero_witness :
    jsNumberOfValue (some "") = JSNum.num 0 0 ∧
    checkCookieForTransactionalConsistency (fun _ => fsPrimary "1/0") envStd 1
        (some "txnum=") = some (.ok (.deleteCookie deleteCookieHeader)) ∧
    checkCookieForTransactionalConsistency (fun _ => fsReplica "2/0") envStd
        100 (some "txnum=") ≠ some (.ok .ok) :=
  checkCookie_empty_value_is_zero (fun _ => fsPrimary "1/0") envStd 1
    "txnum=" ⟨"self", "self", true⟩ (.num 1 0) (fun _ => fsReplica "2/0")
    envStd 100 "txnum=" (by decide) rfl (by decide) (by decide) (by decide)

/-- C4 (amended): a present cookie value whose `Number(...)` conversion is
not finite (for example a non-numeric string) yields the delete-cookie
outcome and never an error; negative or fractional numeric strings are
accepted as valid by the code (see the counterexample), so they are not
covered here. -/
theorem checkCookie_nonnumeric_value_deletes (fsAt : ℕ → FS) (env : Env)
    (fuel : ℕ) (hdr v : String)
    (hv : lookupCookie (requestCookies (some hdr)) TXID_NUM_COOKIE_NAME = some v)
    (hnf : (jsNumberOfValue (some v)).isFinite = false) :
    checkCookieForTransactionalConsistency fsAt env fuel (some hdr)
      = some (.ok (.deleteCookie deleteCookieHeader)) :=
  checkCookie_nonfinite_aux fsAt env fuel hdr v hv hnf

theorem checkCookie_nonnumeric_value_deletes_witness :
    checkCookieForTransactionalConsistency (fun _ => fsPrimary "0/0") envStd 1
        (some "txnum=abc") = some (.ok (.deleteCookie deleteCookieHeader)) :=
  checkCookie_nonnumeric_value_deletes (fun _ => fsPrimary "0/0") envStd 1
    "txnum=abc" "abc" (by decide) (by decide)

/-- C4 (counterexample): the cookie value `1.5` is present and is not a
valid non-negative integer, yet on a stale replica the decision is replay,
not delete-cookie: the code validates with `Number.isFinite`, which accepts
fractional (and negative) numbers. -/
theorem checkCookie_fractional_value_replays :
    checkCookieForTransactionalConsistency (fun _ => fsReplica "1/0") envStd
        100 (some "txnum=1.5")
      = some (.ok (.replay "instance=otherhost" "otherhost")) ∧
    checkCookieForTransactionalConsistency (fun _ => fsReplica "1/0") envStd
        100 (some "txnum=1.5")
      ≠ some (.ok (.deleteCookie deleteCookieHeader)) ∧
    checkCookieForTransactionalConsistency (fun _ => fsReplica "1/0") envStd
        100 (some "txnum=1.5") ≠ some (.ok .ok) :=
  ⟨by decide, by decide, by decide⟩

end LiteFSJs
namespace LiteFSJs

/-- C1 (code bug): with the transaction number pinned at 0 and the target
at 1 — so the target is never reached — the waiter returns `false` after a
single sleep of `intervalMs = 30` milliseconds, far before the
`timeoutMs = 500` deadline: the loop condition at src/index.ts:166 keeps
polling while `currentTxNumber >= clientTxNumber`, the reverse of the
specified `current < target`. -/
theorem waitFor_never_reaches_exits_after_one_interval :
    waitForUpToDateTxNumber (fun _ => fsPrimary "0/0") envStd (.num 1 0)
        none none 500 30 100 = some (.ok (false, 1)) ∧ 1 * 30 < 500 :=
  ⟨by decide, by decide⟩

/-- C2 (code bug): first read 2, every in-loop re-read 3 with target 3 —
the target is reached at the very first re-read, 30 ms in, well before the
500 ms deadline — yet the inverted loop condition at src/index.ts:166 keeps
sleeping and re-reading until the deadline has passed, returning only at
the 17th sleep instead of immediately after the 1st. -/
theorem waitFor_keeps_polling_after_target_reached :
    waitForUpToDateTxNumber fsAtCatchUp envStd (.num 3 0) none none 500 30 100
      = some (.ok (true, 17)) ∧ 500 ≤ 17 * 30 ∧ (1 : ℕ) < 17 :=
  ⟨by decide, by decide, by decide⟩

/-- C3 (code bug): `waitForUpToDateTxNumber` passes the explicit
`litefsDir`/`databaseFilename` options only to the first read; the re-read
inside the loop calls `getTxNumber()` with no arguments
(src/index.ts:165). First conjunct: with the options supplied but the
environment variables unset, the loop re-read throws the LITEFS_DIR
configuration error even though a directory was supplied. Second conjunct:
with the environment pointing at a different directory whose position file
reads 7, the wait for target 5 succeeds although the supplied directory
stays at 0 throughout. -/
theorem waitFor_loop_rereads_use_env_defaults :
    waitForUpToDateTxNumber (fun _ => fsExplicitOnly) envNoVars (.num 5 0)
        (some "/x") (some "db") 500 30 100
      = some (.error litefsDirErrorGetTxNumber) ∧
    waitForUpToDateTxNumber (fun _ => fsTwoDirs) envOther (.num 5 0)
        (some "/x") (some "db") 500 30 100 = some (.ok (true, 17)) :=
  ⟨by decide, by decide⟩

/-- C8 (counterexample): a readable position file whose leading field
(`zzz`) is not parseable hexadecimal makes `getTxNumber` return NaN — not
0: `parseInt` returning NaN does not throw, so the `catch`-based default
never fires. -/
theorem getTxNumber_unparseable_hex_is_nan :
    getTxNumber fsGarbagePos envStd none none = .ok .nan ∧
      (Except.ok JSNum.nan : Except String JSNum) ≠ .ok (.num 0 0) :=
  ⟨by decide, by decide⟩

/-- C8 (amended): with resolvable directory and database filename,
`getTxNumber` never throws: an unreadable position file yields 0, and a
readable one yields exactly `parseInt(first field, 16)` — which is NaN
rather than 0 when the leading field is not parseable hexadecimal. -/
theorem getTxNumber_read_failure_defaults_to_zero (fsM fsR : FS)
    (envM envR : Env) (dirM dbM dirR dbR content : String)
    (hdirM : dirM ≠ "") (hdbM : dbM ≠ "") (hdirR : dirR ≠ "") (hdbR : dbR ≠ "")
    (hmiss : fsM (dirM ++ "/" ++ dbM ++ "-pos") = none)
    (hread : fsR (dirR ++ "/" ++ dbR ++ "-pos") = some content) :
    getTxNumber fsM envM (some dirM) (some dbM) = .ok (.num 0 0) ∧
    getTxNumber fsR envR (some dirR) (some dbR)
      = .ok (parseIntHexChars
          (List.headD (splitOnChar '/' (trimChars content.data)) [])) := by
  constructor
  · simp only [getTxNumber, resolveOpt, presentStr, if_neg hdirM,
      if_neg hdbM, hmiss]
  · simp only [getTxNumber, resolveOpt, presentStr, if_neg hdirR,
      if_neg hdbR, hread]

theorem getTxNumber_read_failure_defaults_to_zero_witness :
    getTxNumber (fun _ => none) envStd (some "/l") (some "db")
        = .ok (.num 0 0) ∧
    getTxNumber fsGarbagePos envStd (some "/l") (some "db") = .ok .nan :=
  ⟨(getTxNumber_read_failure_defaults_to_zero (fun _ => none) fsGarbagePos
      envStd envStd "/l" "db" "/l" "db" "zzz/0" (by decide) (by decide)
      (by decide) (by decide) rfl (by decide)).1,
    (getTxNumber_read_failure_defaults_to_zero (fun _ => none) fsGarbagePos
      envStd envStd "/l" "db" "/l" "db" "zzz/0" (by decide) (by decide)
      (by decide) (by decide) rfl (by decide)).2⟩

end LiteFSJs
namespace LiteFSJs

theorem string_beq_comm (a b : String) : (a == b) = (b == a) := by
  by_cases h : a = b
  · subst h; rfl
  · rw [beq_eq_false_iff_ne.mpr h, beq_eq_false_iff_ne.mpr (fun e => h e.symm)]

/-- C9: with a resolvable marker directory, an absent or unreadable
`.primary` marker makes both `getInstanceInfo` and `getInstanceInfoSync`
report the current host as primary, and a readable marker makes them report
its trimmed content as the primary with `currentIsPrimary` equal to the
equality of primary and current instance. -/
theorem getInstanceInfo_marker_semantics (fsA fsP : FS) (envA envP : Env)
    (dirA dirP content : String) (hdirA : dirA ≠ "") (hdirP : dirP ≠ "")
    (habsent : fsA (dirA ++ "/.primary") = none)
    (hpresent : fsP (dirP ++ "/.primary") = some content) :
    (getInstanceInfo fsA envA (some dirA)
        = .ok ⟨envA.hostname, envA.hostname, true⟩ ∧
      getInstanceInfoSync fsA envA (some dirA)
        = .ok ⟨envA.hostname, envA.hostname, true⟩) ∧
    (getInstanceInfo fsP envP (some dirP)
        = .ok ⟨jsTrim content, envP.hostname, jsTrim content == envP.hostname⟩ ∧
      getInstanceInfoSync fsP envP (some dirP)
        = .ok ⟨jsTrim content, envP.hostname,
            jsTrim content == envP.hostname⟩) := by
  constructor
  · constructor
    · simp only [getInstanceInfo, resolveOpt, presentStr, if_neg hdirA,
        habsent]
      rw [beq_self_eq_true]
    · simp only [getInstanceInfoSync, resolveOpt, presentStr, if_neg hdirA,
        habsent]
      rw [beq_self_eq_true]
  · constructor
    · simp only [getInstanceInfo, resolveOpt, presentStr, if_neg hdirP,
        hpresent]
      rw [string_beq_comm]
    · simp only [getInstanceInfoSync, resolveOpt, presentStr, if_neg hdirP,
        hpresent]
      rw [string_beq_comm]

theorem getInstanceInfo_marker_semantics_witness :
    (getInstanceInfo (fun _ => none) envStd (some "/l")
        = .ok ⟨"self", "self", true⟩ ∧
      getInstanceInfoSync (fun _ => none) envStd (some "/l")
        = .ok ⟨"self", "self", true⟩) ∧
    (getInstanceInfo (fsReplica "2/0") envStd (some "/l")
        = .ok ⟨"otherhost", "self", false⟩ ∧
      getInstanceInfoSync (fsReplica "2/0") envStd (some "/l")
        = .ok ⟨"otherhost", "self", false⟩) :=
  getInstanceInfo_marker_semantics (fun _ => none) (fsReplica "2/0") envStd
    envStd "/l" "/l" "otherhost" (by decide) (by decide) rfl (by decide)

end LiteFSJs
